import Mathlib

/-!
Shallow embedding of `FetchOPCProcessor` (extensions/opc/src/fetchopc.cpp)
from the nifi-minifi-cpp repository, together with proofs about its
scheduling, triggering, traversal-callback and record-emission logic.

The embedding keeps the source's names where Lean allows it:
`onSchedule`, `onTrigger`, `nodeFoundCallBack`, `OPCData2FlowFile`,
`translatedNodeIDs`, `nodesFound`, `variablesFound`, `configOK`.

Collaborators that live outside this translation unit (the base
processor's certificate handling, the process context's property store,
the OPC client's structural walk and the session's record sink) are
modelled as explicit inputs: a boolean for the base-schedule outcome, an
`Option` per configuration property, and an `Env` structure carrying the
per-invocation responses of the remote client and the record sink.
-/

namespace FetchOPC

/-- The three node-identifier addressing modes of the `Node ID type`
property (`opc::OPCNodeIDType` in the source). -/
inductive OPCNodeIDType where
  | Path
  | Int
  | String
deriving DecidableEq, Repr

/-- A concrete server-side node identity (`UA_NodeId`): a namespace index
and either a numeric or a string identifier. -/
inductive UAIdentifier where
  | numeric (n : Nat)
  | str (s : String)
deriving DecidableEq, Repr

/-- `UA_NodeId`: namespace index (a 16-bit unsigned in OPC UA) plus the
identifier. -/
structure UA_NodeId where
  namespaceIndex : Nat
  identifier : UAIdentifier
deriving DecidableEq, Repr

/-- Characters accepted as whitespace by `std::isspace` in the default
locale, skipped by `std::stoi` before the number. -/
def isCppSpace (c : Char) : Bool :=
  c = ' ' ∨ c = '\t' ∨ c = '\n' ∨ c = '\x0b' ∨ c = '\x0c' ∨ c = '\r'

/-- Value of a maximal leading run of decimal digits; `none` when the
list does not start with a digit (`std::stoi` then throws
`invalid_argument`). -/
def digitsValue (l : List Char) : Option Nat :=
  let ds := l.takeWhile Char.isDigit
  if ds = [] then none
  else some (ds.foldl (fun a c => 10 * a + (c.toNat - 48)) 0)

/-- `std::stoi`: skip leading whitespace, an optional sign, then decimal
digits; `none` models the `invalid_argument` throw (no digits) and the
`out_of_range` throw (value outside the 32-bit `int` range). Trailing
non-digit characters are ignored, as in the source. -/
def stoi? (s : String) : Option Int :=
  let l := s.toList.dropWhile isCppSpace
  match l with
  | '-' :: rest =>
      match digitsValue rest with
      | none => none
      | some m => if m ≤ 2147483648 then some (-(m : Int)) else none
  | '+' :: rest =>
      match digitsValue rest with
      | none => none
      | some m => if m ≤ 2147483647 then some (m : Int) else none
  | rest =>
      match digitsValue rest with
      | none => none
      | some m => if m ≤ 2147483647 then some (m : Int) else none

/-- The mutable member fields of `FetchOPCProcessor` that survive across
`onSchedule` / `onTrigger` calls. -/
structure FetchOPCState where
  configOK : Bool
  idType : OPCNodeIDType
  nodeID : String
  nameSpaceIdx : Int
  maxDepth : Nat
  nodesFound : Nat
  variablesFound : Nat
  translatedNodeIDs : List UA_NodeId
deriving DecidableEq, Repr

/-- A processor state before any scheduling. In C++ `idType_` is
indeterminate before its first assignment; reachability arguments below
therefore only use states produced by at least one `onSchedule`. -/
def freshState : FetchOPCState :=
  { configOK := false
    idType := OPCNodeIDType.Path
    nodeID := ""
    nameSpaceIdx := 0
    maxDepth := 0
    nodesFound := 0
    variablesFound := 0
    translatedNodeIDs := [] }

/-- Modelled from the spec: the configuration surface read through
`ProcessContext::getProperty` (the process context is not part of the
translated sources). `Node ID` and `Node ID type` are required
properties, so they are plain values; `Max depth` and `Namespace index`
may be omitted by the user, and per section 6 of the specification
(`namespace index ... required unless mode=Path`) and Scenario B, an
omitted property is not obtainable: `getProperty` fails on it. -/
structure ConfigContext where
  nodeID : String
  nodeIDType : String
  maxDepth : Option Nat
  nameSpaceIndex : Option Int
deriving DecidableEq, Repr

/-- `FetchOPCProcessor::onSchedule` (fetchopc.cpp lines 83-130).
`baseConfigOK` models the outcome of `BaseOPCProcessor::onSchedule`
(certificate/endpoint validation, outside the translated sources): it
sets `configOK_` before the fetch-specific checks run.

Faithful control flow:
  * the path cache `translatedNodeIDs_` is cleared first, unconditionally;
  * if the base schedule failed, return with `configOK_ = false`;
  * `configOK_` is reset to `false`, `nodeID_` and `maxDepth_` are read
    (`maxDepth_` defaulting to 0 when omitted);
  * the mode string is matched against "String"/"Int"/"Path"; an
    unrecognized value only logs an error and leaves `idType_` at its
    previous value — there is no early return on this branch;
  * for `Int` mode the node ID must parse via `std::stoi`, else return;
  * for non-`Path` modes the namespace index must be obtainable, else
    return; on success it is stored;
  * finally `configOK_ := true`. -/
def onSchedule (ctx : ConfigContext) (baseConfigOK : Bool) (s : FetchOPCState) :
    FetchOPCState :=
  let s0 := { s with translatedNodeIDs := [] }
  let s1 := { s0 with configOK := baseConfigOK }
  if s1.configOK = false then s1
  else
    let s2 := { s1 with
      configOK := false
      nodeID := ctx.nodeID
      maxDepth := ctx.maxDepth.getD 0 }
    let idType :=
      if ctx.nodeIDType = "String" then OPCNodeIDType.String
      else if ctx.nodeIDType = "Int" then OPCNodeIDType.Int
      else if ctx.nodeIDType = "Path" then OPCNodeIDType.Path
      else s2.idType
    let s3 := { s2 with idType := idType }
    if s3.idType = OPCNodeIDType.Int ∧ stoi? s3.nodeID = none then s3
    else if s3.idType ≠ OPCNodeIDType.Path then
      match ctx.nameSpaceIndex with
      | none => s3
      | some n => { s3 with nameSpaceIdx := n, configOK := true }
    else { s3 with configOK := true }

/-- Node class of a discovered reference: the callback only treats
`UA_NODECLASS_VARIABLE` specially, all other classes are lumped together. -/
inductive NodeClass where
  | UA_NODECLASS_VARIABLE
  | UA_NODECLASS_OTHER
deriving DecidableEq, Repr

/-- `opc::NodeData`: the attribute map and the raw value bytes read from
a variable node, plus the string `opc::nodeValue2String` would produce
for it (the serialization lives outside the translated sources; whether
it or the session write throws is injected per node, see
`DiscoveredNode.writeThrows`). -/
structure NodeData where
  attributes : List (String × String)
  data : List Nat
  serialized : String
deriving DecidableEq, Repr

deriving instance DecidableEq for Except

/-- One discovered reference as the remote client reports it to the
visitor callback, bundled with the collaborator responses for that node:
`getNodeData` is the result of `connection_->getNodeData(ref)` (`.error`
models a thrown exception), `createOK` whether `session->create()`
returns a non-null flow file, and `writeThrows` whether
`opc::nodeValue2String` / `session->write` throw for this node's value. -/
structure DiscoveredNode where
  nodeClass : NodeClass
  browseName : String
  getNodeData : Except String NodeData
  createOK : Bool
  writeThrows : Bool
deriving DecidableEq, Repr

/-- The two output relationships of the processor. -/
inductive Relationship where
  | Success
  | Failure
deriving DecidableEq, Repr

/-- A produced flow file: attributes copied from the node data and an
optional payload written from the serialized value. -/
structure FlowFile where
  attributes : List (String × String)
  payload : Option String
deriving DecidableEq, Repr

/-- Result of one `OPCData2FlowFile` call: the `session->transfer` calls
it performed (each pairing the flow file with the relationship it was
routed to) and the log lines it emitted. -/
structure EmitResult where
  transfers : List (FlowFile × Relationship)
  logs : List String
deriving DecidableEq, Repr

/-- `FetchOPCProcessor::OPCData2FlowFile` (fetchopc.cpp lines 207-229).
  * `session->create()` returning null: log an error and return — no
    attributes are copied, nothing is written, nothing is transferred;
  * otherwise every attribute is copied onto the flow file;
  * if the node has value bytes (`data.size() > 0`), serialize and write
    them; if that throws, the flow file (attributes set, no payload) is
    transferred to `Failure` and the call returns;
  * in every other case the flow file is transferred to `Success`. -/
def OPCData2FlowFile (createOK writeThrows : Bool) (opcnode : NodeData) :
    EmitResult :=
  if createOK = false then
    { transfers := [], logs := ["Failed to create flowfile!"] }
  else
    let flowFile : FlowFile := { attributes := opcnode.attributes, payload := none }
    if 0 < opcnode.data.length then
      if writeThrows then
        { transfers := [(flowFile, Relationship.Failure)]
          logs := ["Failed to extract data of OPC node"] }
      else
        { transfers := [({ flowFile with payload := some opcnode.serialized },
                         Relationship.Success)]
          logs := [] }
    else
      { transfers := [(flowFile, Relationship.Success)], logs := [] }

/-- The per-invocation traversal counters (`nodesFound_`,
`variablesFound_` while a walk is in progress). -/
structure Counters where
  nodesFound : Nat
  variablesFound : Nat
deriving DecidableEq, Repr

/-- Result of one visitor-callback invocation: updated counters, the
transfers and logs produced for this node, and the boolean the callback
returns to the traversal engine (`true` = continue). -/
structure CallbackResult where
  counters : Counters
  transfers : List (FlowFile × Relationship)
  logs : List String
  cont : Bool
deriving DecidableEq, Repr

/-- `FetchOPCProcessor::nodeFoundCallBack` (fetchopc.cpp lines 190-205).
  * `nodesFound_` is incremented for every reference, whatever its class;
  * non-variable nodes get nothing else;
  * for a variable node, `getNodeData` runs inside a try block: a thrown
    exception is caught, logged with the node's path label
    (`path + "/" + browsename`), and nothing else happens —
    `variablesFound_` is not incremented;
  * on successful extraction `OPCData2FlowFile` runs and then
    `variablesFound_` is incremented — also when `OPCData2FlowFile`
    returned after a failed `session->create()`, since that path returns
    normally rather than throwing;
  * the callback always returns `true`. -/
def nodeFoundCallBack (c : Counters) (path : String) (ref : DiscoveredNode) :
    CallbackResult :=
  let c1 := { c with nodesFound := c.nodesFound + 1 }
  match ref.nodeClass with
  | NodeClass.UA_NODECLASS_OTHER =>
      { counters := c1, transfers := [], logs := [], cont := true }
  | NodeClass.UA_NODECLASS_VARIABLE =>
      match ref.getNodeData with
      | Except.error e =>
          { counters := c1
            transfers := []
            logs := ["Caught Exception while trying to get data from node " ++
                     path ++ "/" ++ ref.browseName ++ ": " ++ e]
            cont := true }
      | Except.ok nodedata =>
          let er := OPCData2FlowFile ref.createOK ref.writeThrows nodedata
          { counters := { c1 with variablesFound := c1.variablesFound + 1 }
            transfers := er.transfers
            logs := er.logs
            cont := true }

/-- Accumulated traversal-phase state: counters plus all transfers and
logs so far. -/
structure TraverseState where
  counters : Counters
  transfers : List (FlowFile × Relationship)
  logs : List String
deriving DecidableEq, Repr

/-- The traversal state at the start of an invocation: both counters
zeroed (fetchopc.cpp lines 152-153), nothing transferred, no logs. -/
def initTraverseState : TraverseState :=
  { counters := { nodesFound := 0, variablesFound := 0 }
    transfers := []
    logs := [] }

/-- Modelled from the spec: the enumeration half of
`opc::Client::traverse` (the client lives outside the translated
sources). Per section 4.2 of the specification the client invokes the
visitor exactly once per discovered node, in the order the remote source
reports them, and a visitor returning false immediately aborts the
remainder of that traversal. The discovered references for a root are
supplied by the environment (`Env.nodes`). -/
def runTraverse (path : String) (st : TraverseState) :
    List DiscoveredNode → TraverseState
  | [] => st
  | ref :: rest =>
      let r := nodeFoundCallBack st.counters path ref
      let st1 : TraverseState :=
        { counters := r.counters
          transfers := st.transfers ++ r.transfers
          logs := st.logs ++ r.logs }
      if r.cont then runTraverse path st1 rest else st1

/-- Sequential traversal of several resolved roots (the `for` loop over
`translatedNodeIDs_`, fetchopc.cpp lines 176-178), accumulating the
shared counters. -/
def runRoots (nodes : UA_NodeId → List DiscoveredNode) (path : String)
    (st : TraverseState) : List UA_NodeId → TraverseState
  | [] => st
  | root :: rest => runRoots nodes path (runTraverse path st (nodes root)) rest

/-- Collaborator behaviour for one `onTrigger` invocation:
  * `lockAvailable`: whether the non-blocking `try_to_lock` acquisition
    of `onTriggerMutex_` succeeds (no other invocation holds it);
  * `reconnectOK`: the result of `reconnect()`;
  * `resolveResult`: outcome of
    `translateBrowsePathsToNodeIdsRequest` — `.error sc` is a non-GOOD
    status code, `.ok l` is GOOD with the references written into the
    output vector (modelled from the spec for the failure case: a failed
    resolution writes nothing);
  * `nodes`: the references the remote client reports when traversing
    from a given root. -/
structure Env where
  lockAvailable : Bool
  reconnectOK : Bool
  resolveResult : Except Nat (List UA_NodeId)
  nodes : UA_NodeId → List DiscoveredNode

/-- Result of one `onTrigger` invocation: the post-state and the
observable effects — whether `yield()` was called, whether the lock was
acquired, whether `reconnect()` was attempted, how many remote path
resolutions were issued, which roots were passed to
`connection_->traverse`, all transfers and logs, whether the traversal
phase ran to completion, and whether the unguarded `std::stoi` at line
161 threw (which in the source would propagate out of `onTrigger`). -/
structure TriggerResult where
  state : FetchOPCState
  yielded : Bool
  lockAcquired : Bool
  reconnectAttempted : Bool
  resolveCalls : Nat
  traversedRoots : List UA_NodeId
  transfers : List (FlowFile × Relationship)
  logs : List String
  traversalCompleted : Bool
  numericConversionFailed : Bool

/-- The direct (non-path) root node ID built at fetchopc.cpp lines
157-165: the namespace index member converted to `UA_UInt16`, and either
the `std::stoi` value converted to `UA_UInt32` (Int mode) or the raw
string (String mode). Only evaluated after the parse was checked. -/
def mkDirectNodeId (s : FetchOPCState) : UA_NodeId :=
  { namespaceIndex := (s.nameSpaceIdx % (65536 : Int)).toNat
    identifier :=
      if s.idType = OPCNodeIDType.Int then
        UAIdentifier.numeric (((stoi? s.nodeID).getD 0 % (4294967296 : Int)).toNat)
      else
        UAIdentifier.str s.nodeID }

/-- Shared tail of `onTrigger` once the roots to traverse are known:
run the traversal, store the counters back into the member fields, and
yield when no nodes or no variables were found (fetchopc.cpp lines
180-186). -/
def finishTraversal (env : Env) (s : FetchOPCState) (pathLabel : String)
    (roots : List UA_NodeId) (calls : Nat) : TriggerResult :=
  let ts := runRoots env.nodes pathLabel initTraverseState roots
  { state := { s with
      nodesFound := ts.counters.nodesFound
      variablesFound := ts.counters.variablesFound }
    yielded := ts.counters.nodesFound == 0 || ts.counters.variablesFound == 0
    lockAcquired := true
    reconnectAttempted := true
    resolveCalls := calls
    traversedRoots := roots
    transfers := ts.transfers
    logs := ts.logs
    traversalCompleted := true
    numericConversionFailed := false }

/-- `FetchOPCProcessor::onTrigger` (fetchopc.cpp lines 132-188).
  * an unconfigured processor logs, yields and returns before touching
    the lock, the connection or any state;
  * the execution guard is a `try_to_lock`: when unavailable the call
    logs a warning and returns immediately — no yield, no reconnect, no
    state change;
  * a failed `reconnect()` yields;
  * the counters are then reset and, for non-Path modes, the root ID is
    rebuilt — re-running `std::stoi` outside any try block;
  * for Path mode an empty cache triggers one remote resolution: a
    non-GOOD status logs, yields and returns without caching, a GOOD
    result is stored in `translatedNodeIDs_` and every reference in it
    is traversed;
  * a non-empty cache is reused with no resolution call. -/
def onTrigger (env : Env) (s : FetchOPCState) : TriggerResult :=
  if s.configOK = false then
    { state := s, yielded := true, lockAcquired := false
      reconnectAttempted := false, resolveCalls := 0, traversedRoots := []
      transfers := []
      logs := ["This processor was not configured properly, yielding. Please check for previous errors in the logs!"]
      traversalCompleted := false, numericConversionFailed := false }
  else if env.lockAvailable = false then
    { state := s, yielded := false, lockAcquired := false
      reconnectAttempted := false, resolveCalls := 0, traversedRoots := []
      transfers := []
      logs := ["processor was triggered before previous listing finished, configuration should be revised!"]
      traversalCompleted := false, numericConversionFailed := false }
  else if env.reconnectOK = false then
    { state := s, yielded := true, lockAcquired := true
      reconnectAttempted := true, resolveCalls := 0, traversedRoots := []
      transfers := [], logs := []
      traversalCompleted := false, numericConversionFailed := false }
  else
    let s1 := { s with nodesFound := 0, variablesFound := 0 }
    if s1.idType ≠ OPCNodeIDType.Path then
      if s1.idType = OPCNodeIDType.Int ∧ stoi? s1.nodeID = none then
        { state := s1, yielded := false, lockAcquired := true
          reconnectAttempted := true, resolveCalls := 0, traversedRoots := []
          transfers := [], logs := []
          traversalCompleted := false, numericConversionFailed := true }
      else
        finishTraversal env s1 "" [mkDirectNodeId s1] 0
    else
      if s1.translatedNodeIDs = [] then
        match env.resolveResult with
        | Except.error _ =>
            { state := s1, yielded := true, lockAcquired := true
              reconnectAttempted := true, resolveCalls := 1
              traversedRoots := [], transfers := []
              logs := ["Failed to translate node id, no flow files will be generated"]
              traversalCompleted := false, numericConversionFailed := false }
        | Except.ok l =>
            finishTraversal env { s1 with translatedNodeIDs := l } s1.nodeID l 1
      else
        finishTraversal env s1 s1.nodeID s1.translatedNodeIDs 0

/-! ### Helper lemmas about the visitor callback and the traversal fold -/

theorem nodeFoundCallBack_cont (c : Counters) (path : String)
    (ref : DiscoveredNode) : (nodeFoundCallBack c path ref).cont = true := by
  rcases ref with ⟨nc, bn, gd, co, wt⟩
  cases nc <;> cases gd <;> rfl

theorem nodeFoundCallBack_nodesFound (c : Counters) (path : String)
    (ref : DiscoveredNode) :
    (nodeFoundCallBack c path ref).counters.nodesFound = c.nodesFound + 1 := by
  rcases ref with ⟨nc, bn, gd, co, wt⟩
  cases nc <;> cases gd <;> rfl

theorem nodeFoundCallBack_vars (c : Counters) (path : String)
    (ref : DiscoveredNode) :
    (nodeFoundCallBack c path ref).counters.variablesFound = c.variablesFound ∨
      (nodeFoundCallBack c path ref).counters.variablesFound =
        c.variablesFound + 1 := by
  rcases ref with ⟨nc, bn, gd, co, wt⟩
  cases nc <;> cases gd
  · left; rfl
  · right; rfl
  · left; rfl
  · left; rfl

theorem OPCData2FlowFile_transfers_le (co wt : Bool) (d : NodeData) :
    (OPCData2FlowFile co wt d).transfers.length ≤ 1 := by
  cases co
  · simp [OPCData2FlowFile]
  · simp only [OPCData2FlowFile]
    split_ifs <;> simp_all

theorem OPCData2FlowFile_created_length (wt : Bool) (d : NodeData) :
    (OPCData2FlowFile true wt d).transfers.length = 1 := by
  simp only [OPCData2FlowFile]
  split_ifs <;> simp_all

theorem nodeFoundCallBack_transfers_vars (c : Counters) (path : String)
    (ref : DiscoveredNode) :
    (nodeFoundCallBack c path ref).transfers.length + c.variablesFound ≤
      (nodeFoundCallBack c path ref).counters.variablesFound := by
  rcases ref with ⟨nc, bn, gd, co, wt⟩
  cases nc <;> cases gd <;> simp [nodeFoundCallBack]
  have := OPCData2FlowFile_transfers_le co wt ‹NodeData›
  omega

theorem nodeFoundCallBack_transfers_vars_eq (c : Counters) (path : String)
    (ref : DiscoveredNode) (h : ref.createOK = true) :
    (nodeFoundCallBack c path ref).transfers.length + c.variablesFound =
      (nodeFoundCallBack c path ref).counters.variablesFound := by
  rcases ref with ⟨nc, bn, gd, co, wt⟩
  cases h
  cases nc <;> cases gd <;> simp [nodeFoundCallBack]
  have := OPCData2FlowFile_created_length wt ‹NodeData›
  omega

theorem runTraverse_vars_le_nodes (path : String) (l : List DiscoveredNode) :
    ∀ st : TraverseState,
      st.counters.variablesFound ≤ st.counters.nodesFound →
      (runTraverse path st l).counters.variablesFound ≤
        (runTraverse path st l).counters.nodesFound := by
  induction l with
  | nil => intro st h; exact h
  | cons n rest ih =>
      intro st h
      rw [runTraverse]
      simp only [nodeFoundCallBack_cont, if_true]
      apply ih
      have h1 := nodeFoundCallBack_nodesFound st.counters path n
      have h2 := nodeFoundCallBack_vars st.counters path n
      simp only []
      omega

theorem runRoots_vars_le_nodes (nodes : UA_NodeId → List DiscoveredNode)
    (path : String) (roots : List UA_NodeId) :
    ∀ st : TraverseState,
      st.counters.variablesFound ≤ st.counters.nodesFound →
      (runRoots nodes path st roots).counters.variablesFound ≤
        (runRoots nodes path st roots).counters.nodesFound := by
  induction roots with
  | nil => intro st h; exact h
  | cons r rest ih =>
      intro st h
      rw [runRoots]
      exact ih _ (runTraverse_vars_le_nodes path (nodes r) st h)

theorem runTraverse_transfers_le_vars (path : String) (l : List DiscoveredNode) :
    ∀ st : TraverseState,
      st.transfers.length ≤ st.counters.variablesFound →
      (runTraverse path st l).transfers.length ≤
        (runTraverse path st l).counters.variablesFound := by
  induction l with
  | nil => intro st h; exact h
  | cons n rest ih =>
      intro st h
      rw [runTraverse]
      simp only [nodeFoundCallBack_cont, if_true]
      apply ih
      have h1 := nodeFoundCallBack_transfers_vars st.counters path n
      simp only [List.length_append]
      omega

theorem runRoots_transfers_le_vars (nodes : UA_NodeId → List DiscoveredNode)
    (path : String) (roots : List UA_NodeId) :
    ∀ st : TraverseState,
      st.transfers.length ≤ st.counters.variablesFound →
      (runRoots nodes path st roots).transfers.length ≤
        (runRoots nodes path st roots).counters.variablesFound := by
  induction roots with
  | nil => intro st h; exact h
  | cons r rest ih =>
      intro st h
      rw [runRoots]
      exact ih _ (runTraverse_transfers_le_vars path (nodes r) st h)

theorem runTraverse_transfers_eq_vars (path : String) (l : List DiscoveredNode) :
    ∀ st : TraverseState, (∀ n ∈ l, n.createOK = true) →
      st.transfers.length = st.counters.variablesFound →
      (runTraverse path st l).transfers.length =
        (runTraverse path st l).counters.variablesFound := by
  induction l with
  | nil => intro st _ h; exact h
  | cons n rest ih =>
      intro st hall h
      rw [runTraverse]
      simp only [nodeFoundCallBack_cont, if_true]
      apply ih _ (fun m hm => hall m (List.mem_cons_of_mem n hm))
      have h1 := nodeFoundCallBack_transfers_vars_eq st.counters path n
        (hall n (List.mem_cons_self n rest))
      simp only [List.length_append]
      omega

theorem runRoots_transfers_eq_vars (nodes : UA_NodeId → List DiscoveredNode)
    (path : String) (roots : List UA_NodeId) :
    ∀ st : TraverseState, (∀ r ∈ roots, ∀ n ∈ nodes r, n.createOK = true) →
      st.transfers.length = st.counters.variablesFound →
      (runRoots nodes path st roots).transfers.length =
        (runRoots nodes path st roots).counters.variablesFound := by
  induction roots with
  | nil => intro st _ h; exact h
  | cons r rest ih =>
      intro st hall h
      rw [runRoots]
      exact ih _ (fun r2 hr2 => hall r2 (List.mem_cons_of_mem r hr2))
        (runTraverse_transfers_eq_vars path (nodes r) st
          (hall r (List.mem_cons_self r rest)) h)

theorem nodeFoundCallBack_vars_iff (c : Counters) (q : String)
    (ref : DiscoveredNode) :
    ((ref.nodeClass = NodeClass.UA_NODECLASS_VARIABLE ∧
        ∃ d, ref.getNodeData = Except.ok d) →
      (nodeFoundCallBack c q ref).counters.variablesFound =
        c.variablesFound + 1) ∧
    (¬(ref.nodeClass = NodeClass.UA_NODECLASS_VARIABLE ∧
        ∃ d, ref.getNodeData = Except.ok d) →
      (nodeFoundCallBack c q ref).counters.variablesFound =
        c.variablesFound) := by
  rcases ref with ⟨nc, bn, gd, co, wt⟩
  cases nc <;> cases gd <;> simp [nodeFoundCallBack]

/-! ### Claim theorems -/

/-- C1: for a discovered node classified as a variable whose
`getNodeData` call throws, the exception is caught inside
`nodeFoundCallBack`: the warning is logged with the node's path label
(`path + "/" + browsename`), no transfer is produced, `variablesFound`
is not incremented (while `nodesFound` is, as for every node), the
callback returns `true` (continue), and the traversal of the remaining
nodes proceeds exactly as it would from the state in which this node
only bumped `nodesFound` and appended the log line. -/
theorem fetchopc_c1_extraction_failure_isolated (path : String)
    (st : TraverseState) (ref : DiscoveredNode) (rest : List DiscoveredNode)
    (e : String) (hv : ref.nodeClass = NodeClass.UA_NODECLASS_VARIABLE)
    (he : ref.getNodeData = Except.error e) :
    (nodeFoundCallBack st.counters path ref).counters.variablesFound =
        st.counters.variablesFound
    ∧ (nodeFoundCallBack st.counters path ref).counters.nodesFound =
        st.counters.nodesFound + 1
    ∧ (nodeFoundCallBack st.counters path ref).transfers = []
    ∧ (nodeFoundCallBack st.counters path ref).logs =
        ["Caught Exception while trying to get data from node " ++ path ++
          "/" ++ ref.browseName ++ ": " ++ e]
    ∧ (nodeFoundCallBack st.counters path ref).cont = true
    ∧ runTraverse path st (ref :: rest) =
        runTraverse path
          { counters := { nodesFound := st.counters.nodesFound + 1
                          variablesFound := st.counters.variablesFound }
            transfers := st.transfers
            logs := st.logs ++
              ["Caught Exception while trying to get data from node " ++
                path ++ "/" ++ ref.browseName ++ ": " ++ e] } rest := by
  rcases ref with ⟨nc, bn, gd, co, wt⟩
  subst hv
  subst he
  refine ⟨rfl, rfl, rfl, rfl, rfl, ?_⟩
  rw [runTraverse]
  simp [nodeFoundCallBack]

def c1Ref : DiscoveredNode :=
  { nodeClass := NodeClass.UA_NODECLASS_VARIABLE
    browseName := "Sensor2"
    getNodeData := Except.error "BadAttributeIdInvalid"
    createOK := true
    writeThrows := false }

theorem fetchopc_c1_witness :
    (nodeFoundCallBack initTraverseState.counters "/Sensors" c1Ref).counters.variablesFound = 0
    ∧ (nodeFoundCallBack initTraverseState.counters "/Sensors" c1Ref).logs =
        ["Caught Exception while trying to get data from node /Sensors/Sensor2: BadAttributeIdInvalid"]
    ∧ (nodeFoundCallBack initTraverseState.counters "/Sensors" c1Ref).cont = true := by
  have h := fetchopc_c1_extraction_failure_isolated "/Sensors" initTraverseState
    c1Ref [] "BadAttributeIdInvalid" rfl rfl
  exact ⟨h.1, h.2.2.2.1, h.2.2.2.2.1⟩

/-- C2: for node data for which the flow file was successfully created
(`session->create()` non-null), exactly one transfer happens — to
`Success` xor `Failure`, never both, never neither — the transferred
flow file carries all copied attributes, and it goes to `Failure`
exactly when the node has value bytes and writing them as the payload
throws; when the value is absent or the write succeeds it goes to
`Success`. -/
theorem fetchopc_c2_record_routing (wt : Bool) (d : NodeData) :
    (OPCData2FlowFile true wt d).transfers.length = 1
    ∧ ∀ ff rel, (ff, rel) ∈ (OPCData2FlowFile true wt d).transfers →
        ff.attributes = d.attributes
        ∧ (rel = Relationship.Failure ↔ 0 < d.data.length ∧ wt = true)
        ∧ (rel = Relationship.Success ↔ d.data.length = 0 ∨ wt = false) := by
  refine ⟨OPCData2FlowFile_created_length wt d, ?_⟩
  intro ff rel hmem
  simp only [OPCData2FlowFile] at hmem
  split_ifs at hmem with h0 h1 h2 <;> simp_all [List.length_pos]

def c2Data : NodeData :=
  { attributes := [("Browsename", "Temperature"), ("NodeID", "101")]
    data := [52, 50]
    serialized := "42" }

theorem fetchopc_c2_witness :
    ({ attributes := c2Data.attributes, payload := none } : FlowFile).attributes
        = c2Data.attributes
    ∧ (Relationship.Failure = Relationship.Failure ↔
        0 < c2Data.data.length ∧ true = true) := by
  have h := fetchopc_c2_record_routing true c2Data
  have h2 := h.2 { attributes := c2Data.attributes, payload := none }
    Relationship.Failure (by decide)
  exact ⟨h2.1, h2.2.1⟩

def c5Data : NodeData :=
  { attributes := [("Browsename", "v1")], data := [1], serialized := "1" }

def c5Ref : DiscoveredNode :=
  { nodeClass := NodeClass.UA_NODECLASS_VARIABLE
    browseName := "v1"
    getNodeData := Except.ok c5Data
    createOK := false
    writeThrows := false }

/-- C5 counterexample: a variable node whose data extraction succeeded
but whose flow-file creation fails (`session->create()` returns null)
produces no transfer, yet `variablesFound` IS incremented (0 becomes 1):
`OPCData2FlowFile` returns normally after logging, so the
`variablesFound_++` after the call still executes — contradicting the
claim that the output counters stay unchanged for that node. -/
theorem fetchopc_c5_counterexample :
    c5Ref.createOK = false
    ∧ (nodeFoundCallBack { nodesFound := 0, variablesFound := 0 } "/S" c5Ref).transfers = []
    ∧ (nodeFoundCallBack { nodesFound := 0, variablesFound := 0 } "/S" c5Ref).counters.variablesFound = 1 := by
  decide

/-- C5 amended: for a variable node whose data was extracted
successfully, if creating the output record fails, the node is skipped
in the sense that no attribute copy, payload write or routing happens
(no transfer at all), and the callback continues; but `variablesFound`
is nonetheless incremented for that node (and `nodesFound` as for every
node), because the creation failure does not escape `OPCData2FlowFile`. -/
theorem fetchopc_c5_amended (c : Counters) (path : String)
    (ref : DiscoveredNode) (d : NodeData)
    (hv : ref.nodeClass = NodeClass.UA_NODECLASS_VARIABLE)
    (hd : ref.getNodeData = Except.ok d) (hc : ref.createOK = false) :
    (nodeFoundCallBack c path ref).transfers = []
    ∧ (OPCData2FlowFile ref.createOK ref.writeThrows d).transfers = []
    ∧ (nodeFoundCallBack c path ref).counters.nodesFound = c.nodesFound + 1
    ∧ (nodeFoundCallBack c path ref).counters.variablesFound = c.variablesFound + 1
    ∧ (nodeFoundCallBack c path ref).cont = true := by
  rcases ref with ⟨nc, bn, gd, co, wt⟩
  subst hv
  subst hd
  subst hc
  exact ⟨rfl, rfl, rfl, rfl, rfl⟩

theorem fetchopc_c5_amended_witness :
    (nodeFoundCallBack { nodesFound := 3, variablesFound := 2 } "/S" c5Ref).transfers = []
    ∧ (nodeFoundCallBack { nodesFound := 3, variablesFound := 2 } "/S" c5Ref).counters.variablesFound = 3 := by
  have h := fetchopc_c5_amended { nodesFound := 3, variablesFound := 2 } "/S"
    c5Ref c5Data rfl rfl rfl
  exact ⟨h.1, h.2.2.2.1⟩

/-- C7: the per-invocation counters start at zero; every visitor
invocation increments `nodesFound` by exactly one regardless of node
class; `variablesFound` is incremented exactly for variable-class nodes
whose data extraction succeeded and left unchanged otherwise; and at
every point during and after the walk — after any number of already
traversed roots and any prefix of the current root's discovered nodes —
`variablesFound ≤ nodesFound`. -/
theorem fetchopc_c7_counter_invariant
    (nodes : UA_NodeId → List DiscoveredNode) (path : String)
    (roots : List UA_NodeId) (pre : List DiscoveredNode) :
    initTraverseState.counters.nodesFound = 0
    ∧ initTraverseState.counters.variablesFound = 0
    ∧ (∀ c q ref, (nodeFoundCallBack c q ref).counters.nodesFound =
        c.nodesFound + 1)
    ∧ (∀ c q ref,
        ((ref.nodeClass = NodeClass.UA_NODECLASS_VARIABLE ∧
            ∃ d, ref.getNodeData = Except.ok d) →
          (nodeFoundCallBack c q ref).counters.variablesFound =
            c.variablesFound + 1)
        ∧ (¬(ref.nodeClass = NodeClass.UA_NODECLASS_VARIABLE ∧
            ∃ d, ref.getNodeData = Except.ok d) →
          (nodeFoundCallBack c q ref).counters.variablesFound =
            c.variablesFound))
    ∧ (runTraverse path (runRoots nodes path initTraverseState roots) pre).counters.variablesFound ≤
        (runTraverse path (runRoots nodes path initTraverseState roots) pre).counters.nodesFound := by
  refine ⟨rfl, rfl, fun c q ref => nodeFoundCallBack_nodesFound c q ref,
    nodeFoundCallBack_vars_iff, ?_⟩
  exact runTraverse_vars_le_nodes path pre _
    (runRoots_vars_le_nodes nodes path roots initTraverseState (Nat.le_refl 0))

theorem fetchopc_c7_witness :
    ((runTraverse "/S" (runRoots (fun _ => [c5Ref]) "/S" initTraverseState
        [{ namespaceIndex := 1, identifier := UAIdentifier.numeric 42 }])
        [c1Ref, c5Ref]).counters.variablesFound ≤
      (runTraverse "/S" (runRoots (fun _ => [c5Ref]) "/S" initTraverseState
        [{ namespaceIndex := 1, identifier := UAIdentifier.numeric 42 }])
        [c1Ref, c5Ref]).counters.nodesFound)
    ∧ (nodeFoundCallBack { nodesFound := 0, variablesFound := 0 } "/S" c1Ref).counters.nodesFound = 1 := by
  have h := fetchopc_c7_counter_invariant (fun _ => [c5Ref]) "/S"
    [{ namespaceIndex := 1, identifier := UAIdentifier.numeric 42 }] [c1Ref, c5Ref]
  exact ⟨h.2.2.2.2, h.2.2.1 { nodesFound := 0, variablesFound := 0 } "/S" c1Ref⟩

/-- C9: a trigger invocation that finds the execution guard taken (the
`try_to_lock` acquisition fails while the processor is configured — the
guard can only be held by an invocation that passed the configuration
check, so `configOK_` is true) acquires nothing, logs the warning and
returns immediately: no yield, no reconnect attempt, no resolution call,
no traversal, no transfers, and the entire member state — counters,
cache, configuration — is untouched. -/
theorem fetchopc_c9_guard_skip (env : Env) (s : FetchOPCState)
    (hc : s.configOK = true) (hl : env.lockAvailable = false) :
    (onTrigger env s).lockAcquired = false
    ∧ (onTrigger env s).yielded = false
    ∧ (onTrigger env s).reconnectAttempted = false
    ∧ (onTrigger env s).resolveCalls = 0
    ∧ (onTrigger env s).traversedRoots = []
    ∧ (onTrigger env s).transfers = []
    ∧ (onTrigger env s).state = s
    ∧ (onTrigger env s).logs =
        ["processor was triggered before previous listing finished, configuration should be revised!"] := by
  simp [onTrigger, hc, hl]

def c9State : FetchOPCState :=
  onSchedule { nodeID := "42", nodeIDType := "Int", maxDepth := none
               nameSpaceIndex := some 2 } true freshState

def c9Env : Env :=
  { lockAvailable := false, reconnectOK := true
    resolveResult := Except.ok [], nodes := fun _ => [] }

theorem fetchopc_c9_witness :
    (onTrigger c9Env c9State).lockAcquired = false
    ∧ (onTrigger c9Env c9State).yielded = false
    ∧ (onTrigger c9Env c9State).state = c9State := by
  have h := fetchopc_c9_guard_skip c9Env c9State rfl rfl
  exact ⟨h.1, h.2.1, h.2.2.2.2.2.2.1⟩

theorem onSchedule_valid (ctx : ConfigContext) (b : Bool) (s0 : FetchOPCState)
    (h : (onSchedule ctx b s0).configOK = true) :
    (onSchedule ctx b s0).nodeID = ctx.nodeID
    ∧ ((onSchedule ctx b s0).idType = OPCNodeIDType.Int →
        stoi? ctx.nodeID ≠ none)
    ∧ ((onSchedule ctx b s0).idType ≠ OPCNodeIDType.Path →
        ctx.nameSpaceIndex ≠ none) := by
  cases b with
  | false => simp [onSchedule] at h
  | true =>
    cases hn : ctx.nameSpaceIndex <;>
    by_cases hs : stoi? ctx.nodeID = none <;>
    by_cases h1 : ctx.nodeIDType = "String" <;>
    by_cases h2 : ctx.nodeIDType = "Int" <;>
    by_cases h3 : ctx.nodeIDType = "Path" <;>
    cases hid : s0.idType <;>
    simp_all [onSchedule]

theorem onTrigger_not_configured (env : Env) (t : FetchOPCState)
    (h : t.configOK = false) :
    (onTrigger env t).yielded = true
    ∧ (onTrigger env t).lockAcquired = false
    ∧ (onTrigger env t).reconnectAttempted = false
    ∧ (onTrigger env t).resolveCalls = 0
    ∧ (onTrigger env t).traversedRoots = []
    ∧ (onTrigger env t).transfers = []
    ∧ (onTrigger env t).state = t := by
  simp [onTrigger, h]

def c3PathCtx : ConfigContext :=
  { nodeID := "/Objects/Sensors", nodeIDType := "Path", maxDepth := none
    nameSpaceIndex := none }

def c3BogusCtx : ConfigContext :=
  { nodeID := "/Objects/Sensors", nodeIDType := "Bogus", maxDepth := none
    nameSpaceIndex := none }

/-- C3 counterexample: the claim requires that `configOK_ = true` is
reached only when the node-identifier mode string is one of Path, Int,
String. But the unrecognized-mode branch at fetchopc.cpp lines 109-112
only logs an error and does not return, leaving `idType_` at its
previous value. Concretely: schedule once with mode "Path" (succeeds),
then re-schedule with the unrecognized mode "Bogus" — the stored mode
stays `Path`, no further check fires, and the configuration ends up
valid (`configOK_ = true`) although the configured mode string is not
recognized. -/
theorem fetchopc_c3_counterexample :
    (c3BogusCtx.nodeIDType ≠ "Path" ∧ c3BogusCtx.nodeIDType ≠ "Int" ∧
      c3BogusCtx.nodeIDType ≠ "String")
    ∧ (onSchedule c3BogusCtx true (onSchedule c3PathCtx true freshState)).configOK = true := by
  decide

/-- C3 amended: the coordinator reaches `configOK_ = true` only if the
STORED node-identifier mode satisfies the value checks: when it is Int
the raw value parses as an integer, and when it is not Path a namespace
index is obtainable; an unrecognized raw mode string, however, only
logs an error and leaves the stored mode at its previous value, so it
does not by itself prevent a valid configuration. Whenever the
configuration is invalid, every subsequent trigger invocation yields
immediately without attempting connection, resolution or traversal. -/
theorem fetchopc_c3_amended (ctx : ConfigContext) (b : Bool)
    (s0 : FetchOPCState) (env : Env) :
    ((onSchedule ctx b s0).configOK = true →
       ((onSchedule ctx b s0).idType = OPCNodeIDType.Int →
          stoi? ctx.nodeID ≠ none)
       ∧ ((onSchedule ctx b s0).idType ≠ OPCNodeIDType.Path →
          ctx.nameSpaceIndex ≠ none))
    ∧ (ctx.nodeIDType ≠ "String" → ctx.nodeIDType ≠ "Int" →
        ctx.nodeIDType ≠ "Path" →
        (onSchedule ctx b s0).idType = s0.idType)
    ∧ ((onSchedule ctx b s0).configOK = false →
        (onTrigger env (onSchedule ctx b s0)).yielded = true
        ∧ (onTrigger env (onSchedule ctx b s0)).reconnectAttempted = false
        ∧ (onTrigger env (onSchedule ctx b s0)).resolveCalls = 0
        ∧ (onTrigger env (onSchedule ctx b s0)).traversedRoots = []) := by
  refine ⟨fun hc => (onSchedule_valid ctx b s0 hc).2, ?_, fun hf => ?_⟩
  · intro h1 h2 h3
    cases b with
    | false => simp [onSchedule]
    | true =>
      simp [onSchedule, h1, h2, h3]
      split
      · rfl
      · split
        · rfl
        · split <;> rfl
  · have ht := onTrigger_not_configured env _ hf
    exact ⟨ht.1, ht.2.2.1, ht.2.2.2.1, ht.2.2.2.2.1⟩

def c3ValidCtx : ConfigContext :=
  { nodeID := "42", nodeIDType := "Int", maxDepth := none
    nameSpaceIndex := some 2 }

def c3InvalidCtx : ConfigContext :=
  { nodeID := "fortytwo", nodeIDType := "Int", maxDepth := none
    nameSpaceIndex := some 2 }

def c3Env : Env :=
  { lockAvailable := true, reconnectOK := true
    resolveResult := Except.ok [], nodes := fun _ => [] }

theorem fetchopc_c3_amended_witness :
    stoi? c3ValidCtx.nodeID ≠ none
    ∧ c3ValidCtx.nameSpaceIndex ≠ none
    ∧ (onTrigger c3Env (onSchedule c3InvalidCtx true freshState)).yielded = true
    ∧ (onTrigger c3Env (onSchedule c3InvalidCtx true freshState)).reconnectAttempted = false := by
  have h1 := (fetchopc_c3_amended c3ValidCtx true freshState c3Env).1 rfl
  have h2 := (fetchopc_c3_amended c3InvalidCtx true freshState c3Env).2.2 rfl
  exact ⟨h1.1 rfl, h1.2 (by decide), h2.1, h2.2.1⟩

def c4Ctx : ConfigContext :=
  { nodeID := "42", nodeIDType := "Int", maxDepth := none
    nameSpaceIndex := none }

/-- C4: Scenario B — mode Int, raw value "42", namespace-index property
omitted. For every base-schedule outcome, every prior processor state
and every environment, scheduling leaves the configuration invalid
(`configOK_ = false`, since the namespace index is not obtainable), and
the subsequent trigger invocation yields without attempting any
connection (and without resolving or traversing anything). -/
theorem fetchopc_c4_scenario_b (b : Bool) (s0 : FetchOPCState) (env : Env) :
    (onSchedule c4Ctx b s0).configOK = false
    ∧ (onTrigger env (onSchedule c4Ctx b s0)).yielded = true
    ∧ (onTrigger env (onSchedule c4Ctx b s0)).reconnectAttempted = false
    ∧ (onTrigger env (onSchedule c4Ctx b s0)).lockAcquired = false
    ∧ (onTrigger env (onSchedule c4Ctx b s0)).traversedRoots = [] := by
  have hc : (onSchedule c4Ctx b s0).configOK = false := by
    cases b <;> rfl
  have ht := onTrigger_not_configured env _ hc
  exact ⟨hc, ht.1, ht.2.2.1, ht.2.1, ht.2.2.2.2.1⟩

/-- C10: whenever scheduling produced a valid configuration in Int mode,
the configured node ID parses as an integer — the same string was
checked with `std::stoi` at schedule time and is unchanged — so the
unguarded re-parse at fetchopc.cpp line 161 cannot throw: the
numeric-conversion failure branch of the trigger is unreachable. -/
theorem fetchopc_c10_int_reparse (ctx : ConfigContext) (b : Bool)
    (s0 : FetchOPCState) (env : Env)
    (hc : (onSchedule ctx b s0).configOK = true)
    (hi : (onSchedule ctx b s0).idType = OPCNodeIDType.Int) :
    stoi? (onSchedule ctx b s0).nodeID ≠ none
    ∧ (onTrigger env (onSchedule ctx b s0)).numericConversionFailed = false := by
  obtain ⟨hid, hint, -⟩ := onSchedule_valid ctx b s0 hc
  have hstoi : stoi? (onSchedule ctx b s0).nodeID ≠ none := by
    rw [hid]; exact hint hi
  refine ⟨hstoi, ?_⟩
  cases hl : env.lockAvailable <;> cases hr : env.reconnectOK <;>
    simp [onTrigger, hc, hl, hr, hi, hstoi, finishTraversal]

def c10Env : Env :=
  { lockAvailable := true, reconnectOK := true
    resolveResult := Except.ok [], nodes := fun _ => [] }

theorem fetchopc_c10_witness :
    stoi? (onSchedule c3ValidCtx true freshState).nodeID ≠ none
    ∧ (onTrigger c10Env (onSchedule c3ValidCtx true freshState)).numericConversionFailed = false := by
  exact fetchopc_c10_int_reparse c3ValidCtx true freshState c10Env rfl rfl

theorem onTrigger_path_cached (env : Env) (s : FetchOPCState)
    (hc : s.configOK = true) (hl : env.lockAvailable = true)
    (hr : env.reconnectOK = true) (hp : s.idType = OPCNodeIDType.Path)
    (hne : s.translatedNodeIDs ≠ []) :
    (onTrigger env s).resolveCalls = 0
    ∧ (onTrigger env s).traversedRoots = s.translatedNodeIDs
    ∧ (onTrigger env s).state.translatedNodeIDs = s.translatedNodeIDs := by
  simp [onTrigger, hc, hl, hr, hp, hne, finishTraversal]

theorem onTrigger_path_resolve_ok (env : Env) (s : FetchOPCState)
    (l : List UA_NodeId)
    (hc : s.configOK = true) (hl : env.lockAvailable = true)
    (hr : env.reconnectOK = true) (hp : s.idType = OPCNodeIDType.Path)
    (he : s.translatedNodeIDs = [])
    (hok : env.resolveResult = Except.ok l) :
    (onTrigger env s).resolveCalls = 1
    ∧ (onTrigger env s).traversedRoots = l
    ∧ (onTrigger env s).state.translatedNodeIDs = l
    ∧ (onTrigger env s).state.configOK = true
    ∧ (onTrigger env s).state.idType = OPCNodeIDType.Path := by
  simp [onTrigger, hc, hl, hr, hp, he, hok, finishTraversal]

theorem onSchedule_clears_cache (ctx : ConfigContext) (b : Bool)
    (t : FetchOPCState) : (onSchedule ctx b t).translatedNodeIDs = [] := by
  cases b with
  | false => rfl
  | true =>
    simp [onSchedule]
    repeat' split
    all_goals rfl

/-- C6: for a valid Path-mode configuration, (a) a non-empty cache is
reused: no remote resolution call, exactly the cached references are
traversed, and the cache is unchanged; (b) on a cache miss a single
resolution call is made and, when it succeeds, the returned references
are cached and traversed, after which a second invocation resolving the
same unchanged path issues no remote call and traverses the identical
cached sequence; (c) on a failed resolution the invocation yields and
nothing is cached, so the next invocation retries; (d) the cache is
cleared by every (re)schedule — and, per (a), not by an invocation. -/
theorem fetchopc_c6_path_cache (env env2 : Env) (s : FetchOPCState)
    (l : List UA_NodeId)
    (hc : s.configOK = true) (hl : env.lockAvailable = true)
    (hr : env.reconnectOK = true) (hp : s.idType = OPCNodeIDType.Path) :
    (s.translatedNodeIDs ≠ [] →
       (onTrigger env s).resolveCalls = 0
       ∧ (onTrigger env s).traversedRoots = s.translatedNodeIDs
       ∧ (onTrigger env s).state.translatedNodeIDs = s.translatedNodeIDs)
    ∧ (s.translatedNodeIDs = [] → env.resolveResult = Except.ok l →
       (onTrigger env s).resolveCalls = 1
       ∧ (onTrigger env s).traversedRoots = l
       ∧ (onTrigger env s).state.translatedNodeIDs = l
       ∧ (l ≠ [] → env2.lockAvailable = true → env2.reconnectOK = true →
            (onTrigger env2 (onTrigger env s).state).resolveCalls = 0
            ∧ (onTrigger env2 (onTrigger env s).state).traversedRoots = l
            ∧ (onTrigger env2 (onTrigger env s).state).state.translatedNodeIDs = l))
    ∧ (∀ sc, s.translatedNodeIDs = [] → env.resolveResult = Except.error sc →
       (onTrigger env s).resolveCalls = 1
       ∧ (onTrigger env s).yielded = true
       ∧ (onTrigger env s).state.translatedNodeIDs = []
       ∧ (onTrigger env s).traversedRoots = [])
    ∧ (∀ ctx b t, (onSchedule ctx b t).translatedNodeIDs = []) := by
  refine ⟨fun hne => onTrigger_path_cached env s hc hl hr hp hne,
    fun he hok => ?_, fun sc he herr => ?_, onSchedule_clears_cache⟩
  · obtain ⟨h1, h2, h3, h4, h5⟩ := onTrigger_path_resolve_ok env s l hc hl hr hp he hok
    refine ⟨h1, h2, h3, fun hlne hl2 hr2 => ?_⟩
    have := onTrigger_path_cached env2 (onTrigger env s).state h4 hl2 hr2 h5
      (h3 ▸ hlne)
    rw [h3] at this
    exact this
  · simp [onTrigger, hc, hl, hr, hp, he, herr]

def c6PathCtx : ConfigContext :=
  { nodeID := "/Objects/Boiler", nodeIDType := "Path", maxDepth := none
    nameSpaceIndex := none }

def c6Root : UA_NodeId :=
  { namespaceIndex := 1, identifier := UAIdentifier.numeric 42 }

def c6Env : Env :=
  { lockAvailable := true, reconnectOK := true
    resolveResult := Except.ok [c6Root], nodes := fun _ => [] }

theorem fetchopc_c6_witness :
    (onTrigger c6Env (onSchedule c6PathCtx true freshState)).resolveCalls = 1
    ∧ (onTrigger c6Env (onSchedule c6PathCtx true freshState)).traversedRoots = [c6Root]
    ∧ (onTrigger c6Env (onSchedule c6PathCtx true freshState)).state.translatedNodeIDs = [c6Root]
    ∧ (onTrigger c6Env (onTrigger c6Env (onSchedule c6PathCtx true freshState)).state).resolveCalls = 0
    ∧ (onTrigger c6Env (onTrigger c6Env (onSchedule c6PathCtx true freshState)).state).traversedRoots = [c6Root] := by
  have h := (fetchopc_c6_path_cache c6Env c6Env
    (onSchedule c6PathCtx true freshState) [c6Root] rfl rfl rfl rfl).2.1 rfl rfl
  have h2 := h.2.2.2 (by decide) rfl rfl
  exact ⟨h.1, h.2.1, h.2.2.1, h2.1, h2.2.1⟩

theorem finishTraversal_spec (env : Env) (s : FetchOPCState) (p : String)
    (roots : List UA_NodeId) (k : Nat) :
    ((finishTraversal env s p roots k).yielded = true ↔
      ((finishTraversal env s p roots k).state.nodesFound = 0 ∨
       (finishTraversal env s p roots k).state.variablesFound = 0))
    ∧ (finishTraversal env s p roots k).transfers.length ≤
        (finishTraversal env s p roots k).state.variablesFound
    ∧ (finishTraversal env s p roots k).traversalCompleted = true := by
  refine ⟨?_, ?_, rfl⟩
  · simp [finishTraversal]
  · simpa [finishTraversal] using
      runRoots_transfers_le_vars env.nodes p roots initTraverseState
        (Nat.le_refl 0)

def c8Ctx : ConfigContext :=
  { nodeID := "5", nodeIDType := "Int", maxDepth := none
    nameSpaceIndex := some 1 }

def c8NodeA : DiscoveredNode :=
  { nodeClass := NodeClass.UA_NODECLASS_VARIABLE
    browseName := "a"
    getNodeData := Except.ok
      { attributes := [("Browsename", "a")], data := [49], serialized := "1" }
    createOK := false
    writeThrows := false }

def c8NodeB : DiscoveredNode :=
  { nodeClass := NodeClass.UA_NODECLASS_VARIABLE
    browseName := "b"
    getNodeData := Except.ok
      { attributes := [("Browsename", "b")], data := [50], serialized := "2" }
    createOK := true
    writeThrows := false }

def c8Env : Env :=
  { lockAvailable := true, reconnectOK := true
    resolveResult := Except.error 2155020288
    nodes := fun _ => [c8NodeA, c8NodeB] }

/-- C8 counterexample: an invocation that completes its traversal with
`nodesFound = 2 > 0` and `variablesFound = 2 > 0` returns normally
without yielding — but it emitted only 1 record, not
`variablesFound = 2`: the first variable node's flow-file creation
failed, which produces no record yet still increments
`variablesFound`. -/
theorem fetchopc_c8_counterexample :
    (onTrigger c8Env (onSchedule c8Ctx true freshState)).traversalCompleted = true
    ∧ (onTrigger c8Env (onSchedule c8Ctx true freshState)).yielded = false
    ∧ (onTrigger c8Env (onSchedule c8Ctx true freshState)).state.nodesFound = 2
    ∧ (onTrigger c8Env (onSchedule c8Ctx true freshState)).state.variablesFound = 2
    ∧ (onTrigger c8Env (onSchedule c8Ctx true freshState)).transfers.length = 1 := by
  decide

/-- C8 amended: for every invocation that completes its traversal phase,
the coordinator yields exactly when `nodesFound = 0` or
`variablesFound = 0`, and otherwise returns normally having emitted at
most `variablesFound` records — exactly `variablesFound` whenever every
record creation during the traversal succeeded (record-creation
failures still count toward `variablesFound` but emit nothing). -/
theorem fetchopc_c8_amended (env : Env) (s : FetchOPCState)
    (hc : s.configOK = true) (hl : env.lockAvailable = true)
    (hr : env.reconnectOK = true)
    (hdone : (s.idType ≠ OPCNodeIDType.Path ∧
              ¬(s.idType = OPCNodeIDType.Int ∧ stoi? s.nodeID = none))
           ∨ (s.idType = OPCNodeIDType.Path ∧
              (s.translatedNodeIDs ≠ [] ∨ ∃ m, env.resolveResult = Except.ok m))) :
    (onTrigger env s).traversalCompleted = true
    ∧ ((onTrigger env s).yielded = true ↔
        ((onTrigger env s).state.nodesFound = 0 ∨
         (onTrigger env s).state.variablesFound = 0))
    ∧ (onTrigger env s).transfers.length ≤ (onTrigger env s).state.variablesFound
    ∧ (∀ nodes p roots, (∀ r ∈ roots, ∀ n ∈ nodes r, n.createOK = true) →
        (runRoots nodes p initTraverseState roots).transfers.length =
          (runRoots nodes p initTraverseState roots).counters.variablesFound) := by
  have hfin : ∀ s2 p roots k, onTrigger env s = finishTraversal env s2 p roots k →
      (onTrigger env s).traversalCompleted = true
      ∧ ((onTrigger env s).yielded = true ↔
          ((onTrigger env s).state.nodesFound = 0 ∨
           (onTrigger env s).state.variablesFound = 0))
      ∧ (onTrigger env s).transfers.length ≤
          (onTrigger env s).state.variablesFound := by
    intro s2 p roots k heq
    rw [heq]
    obtain ⟨ha, hb, hcmp⟩ := finishTraversal_spec env s2 p roots k
    exact ⟨hcmp, ha, hb⟩
  have hmain : (onTrigger env s).traversalCompleted = true
      ∧ ((onTrigger env s).yielded = true ↔
          ((onTrigger env s).state.nodesFound = 0 ∨
           (onTrigger env s).state.variablesFound = 0))
      ∧ (onTrigger env s).transfers.length ≤
          (onTrigger env s).state.variablesFound := by
    rcases hdone with ⟨hnp, hni⟩ | ⟨hp, hcase⟩
    · exact hfin { s with nodesFound := 0, variablesFound := 0 } ""
        [mkDirectNodeId { s with nodesFound := 0, variablesFound := 0 }] 0
        (by simp [onTrigger, hc, hl, hr, hnp, hni])
    · by_cases hne : s.translatedNodeIDs = []
      · rcases hcase with hx | ⟨m, hok⟩
        · exact absurd hne hx
        · exact hfin
            { s with nodesFound := 0, variablesFound := 0, translatedNodeIDs := m }
            s.nodeID m 1
            (by simp [onTrigger, hc, hl, hr, hp, hne, hok])
      · exact hfin { s with nodesFound := 0, variablesFound := 0 }
          s.nodeID s.translatedNodeIDs 0
          (by simp [onTrigger, hc, hl, hr, hp, hne])
  refine ⟨hmain.1, hmain.2.1, hmain.2.2, fun nodes p roots hall => ?_⟩
  exact runRoots_transfers_eq_vars nodes p roots initTraverseState hall rfl

def c8AllOkEnv : Env :=
  { lockAvailable := true, reconnectOK := true
    resolveResult := Except.error 2155020288
    nodes := fun _ => [c8NodeB] }

theorem fetchopc_c8_amended_witness :
    (onTrigger c8AllOkEnv (onSchedule c8Ctx true freshState)).traversalCompleted = true
    ∧ ((onTrigger c8AllOkEnv (onSchedule c8Ctx true freshState)).yielded = true ↔
        ((onTrigger c8AllOkEnv (onSchedule c8Ctx true freshState)).state.nodesFound = 0 ∨
         (onTrigger c8AllOkEnv (onSchedule c8Ctx true freshState)).state.variablesFound = 0))
    ∧ (onTrigger c8AllOkEnv (onSchedule c8Ctx true freshState)).transfers.length ≤
        (onTrigger c8AllOkEnv (onSchedule c8Ctx true freshState)).state.variablesFound
    ∧ (runRoots c8AllOkEnv.nodes "" initTraverseState [c6Root]).transfers.length =
        (runRoots c8AllOkEnv.nodes "" initTraverseState [c6Root]).counters.variablesFound := by
  have h := fetchopc_c8_amended c8AllOkEnv (onSchedule c8Ctx true freshState)
    rfl rfl rfl (Or.inl ⟨by decide, by decide⟩)
  exact ⟨h.1, h.2.1, h.2.2.1, h.2.2.2 c8AllOkEnv.nodes "" [c6Root] (by decide)⟩

end FetchOPC
